import Mathlib

/-!
Verification of the SST auto-ticketing agent's retrieval-and-classification
core (files `app_5_RAG.py` and `app_5_LLM.py`), shallowly embedded in Lean.

The embedding translates the Python source directly:
* dictionaries returned by the retrieval functions become structures;
* the Python list/string operations (`in`, `str.count`, `" + ".join`,
  slicing with negative indices, `sorted(..., reverse=True)`) are modelled
  by executable Lean functions with the same semantics;
* external collaborators (the Pinecone semantic index, the OpenAI chat
  model, the `json.loads` decoder, `st.session_state`) are parameters of
  the embedded functions, since their behaviour is not code of this
  repository;
* Python exceptions are modelled with `Except String`.
-/

namespace SST

/-- A retrieval result entry, mirroring the dictionaries built by
`rag_retrieve_semantic` and `rag_retrieve_keyword` in `app_5_RAG.py`
(keys `chunk_id`, `chunk_title`, `chunk_text`, `chunk_score`, `source`). -/
structure Chunk where
  chunk_id : String
  chunk_title : String
  chunk_text : String
  chunk_score : Rat
  source : String
deriving DecidableEq

/-- The evidence bundle dictionary returned by `combine_results`. -/
structure RAGResult where
  RAG_combined_id : String
  RAG_combined_title : String
  RAG_combined_text : String
  RAG_combined_total_chunk_number : Nat
deriving DecidableEq

/-- The heading-prefixed text block `f"### {chunk_title}\n{chunk_text}"`
appended to `combined_texts` for each included chunk. -/
def chunkHeading (c : Chunk) : String :=
  "### " ++ c.chunk_title ++ "\n" ++ c.chunk_text

/-- Accumulator of `combine_results`: the three parallel lists
`(combined_ids, combined_titles, combined_texts)`. -/
abbrev CombineAcc := List String × List String × List String

/-- One iteration of the semantic loop of `combine_results`:
append id, title and heading unconditionally. -/
def addSemantic (acc : CombineAcc) (s : Chunk) : CombineAcc :=
  (acc.1 ++ [s.chunk_id], acc.2.1 ++ [s.chunk_title], acc.2.2 ++ [chunkHeading s])

/-- One iteration of the keyword loop of `combine_results`: append only when
`k["chunk_title"] not in combined_titles`. -/
def addKeyword (acc : CombineAcc) (k : Chunk) : CombineAcc :=
  if acc.2.1.contains k.chunk_title then acc
  else (acc.1 ++ [k.chunk_id], acc.2.1 ++ [k.chunk_title], acc.2.2 ++ [chunkHeading k])

/-- The two loops of `combine_results`, producing the three parallel lists. -/
def combineAcc (semantic_chunks keyword_chunks : List Chunk) : CombineAcc :=
  keyword_chunks.foldl addKeyword (semantic_chunks.foldl addSemantic ([], [], []))

/-- `combine_results` from `app_5_RAG.py`: merge semantic and keyword
results, skipping keyword entries whose title already appears, and join the
accumulated lists into the evidence-bundle strings and count. -/
def combine_results (semantic_chunks keyword_chunks : List Chunk) : RAGResult :=
  let acc := combineAcc semantic_chunks keyword_chunks
  { RAG_combined_id := String.intercalate (" + ") acc.1
    RAG_combined_title := String.intercalate (" + ") acc.2.1
    RAG_combined_text := String.intercalate ("\n\n---\n\n") acc.2.2
    RAG_combined_total_chunk_number := acc.1.length }

/-- The sublist of keyword chunks actually included by the keyword loop of
`combine_results`, given the list of already-included titles.  This is a
specification-side characterisation of the fold, proved equal to it below. -/
def keptKeyword (titles : List String) : List Chunk → List Chunk
  | [] => []
  | k :: ks =>
    if titles.contains k.chunk_title then keptKeyword titles ks
    else k :: keptKeyword (titles ++ [k.chunk_title]) ks

theorem contains_eq_mem (l : List String) (a : String) :
    l.contains a = true ↔ a ∈ l := by
  induction l with
  | nil => simp
  | cons b t ih => simp [List.contains_cons] at ih ⊢

theorem keptKeyword_nil (titles : List String) : keptKeyword titles [] = [] := rfl

theorem keptKeyword_cons (titles : List String) (k : Chunk) (ks : List Chunk) :
    keptKeyword titles (k :: ks) =
      if titles.contains k.chunk_title then keptKeyword titles ks
      else k :: keptKeyword (titles ++ [k.chunk_title]) ks := rfl

theorem foldl_addSemantic (s : List Chunk) (acc : CombineAcc) :
    s.foldl addSemantic acc =
      (acc.1 ++ s.map Chunk.chunk_id,
       acc.2.1 ++ s.map Chunk.chunk_title,
       acc.2.2 ++ s.map chunkHeading) := by
  induction s generalizing acc with
  | nil => simp
  | cons c cs ih => simp [List.foldl_cons, ih, addSemantic]

theorem foldl_addKeyword (ks : List Chunk) (acc : CombineAcc) :
    ks.foldl addKeyword acc =
      (acc.1 ++ (keptKeyword acc.2.1 ks).map Chunk.chunk_id,
       acc.2.1 ++ (keptKeyword acc.2.1 ks).map Chunk.chunk_title,
       acc.2.2 ++ (keptKeyword acc.2.1 ks).map chunkHeading) := by
  induction ks generalizing acc with
  | nil => simp [keptKeyword_nil]
  | cons k ks ih =>
    rw [List.foldl_cons, addKeyword, keptKeyword_cons]
    by_cases h : acc.2.1.contains k.chunk_title = true
    · rw [if_pos h, if_pos h, ih]
    · rw [if_neg h, if_neg h, ih]
      simp

theorem combineAcc_eq (s ks : List Chunk) :
    combineAcc s ks =
      (s.map Chunk.chunk_id ++ (keptKeyword (s.map Chunk.chunk_title) ks).map Chunk.chunk_id,
       s.map Chunk.chunk_title ++ (keptKeyword (s.map Chunk.chunk_title) ks).map Chunk.chunk_title,
       s.map chunkHeading ++ (keptKeyword (s.map Chunk.chunk_title) ks).map chunkHeading) := by
  rw [combineAcc, foldl_addSemantic, foldl_addKeyword]
  simp

/-- Each chunk kept by the keyword loop has a title not among the titles
already included when the loop reached it. -/
theorem keptKeyword_title_not_mem (ks : List Chunk) (titles : List String) :
    ∀ c ∈ keptKeyword titles ks, c.chunk_title ∉ titles := by
  induction ks generalizing titles with
  | nil => simp [keptKeyword_nil]
  | cons k ks ih =>
    intro c hc
    rw [keptKeyword_cons] at hc
    by_cases h : titles.contains k.chunk_title = true
    · rw [if_pos h] at hc
      exact ih titles c hc
    · rw [if_neg h] at hc
      rcases List.mem_cons.mp hc with hc | hc
      · subst hc
        intro hmem
        exact h ((contains_eq_mem _ _).mpr hmem)
      · intro hmem
        exact ih (titles ++ [k.chunk_title]) c hc (by simp [hmem])

/-- The titles of the kept keyword chunks are pairwise distinct. -/
theorem keptKeyword_titles_nodup (ks : List Chunk) (titles : List String) :
    ((keptKeyword titles ks).map Chunk.chunk_title).Nodup := by
  induction ks generalizing titles with
  | nil => simp [keptKeyword_nil]
  | cons k ks ih =>
    rw [keptKeyword_cons]
    by_cases h : titles.contains k.chunk_title = true
    · rw [if_pos h]; exact ih titles
    · rw [if_neg h]
      simp only [List.map_cons, List.nodup_cons]
      refine ⟨?_, ih (titles ++ [k.chunk_title])⟩
      intro hmem
      rcases List.mem_map.mp hmem with ⟨c, hc, hct⟩
      exact keptKeyword_title_not_mem ks (titles ++ [k.chunk_title]) c hc (by simp [hct])

/-- Every keyword chunk whose title is not among the initial titles has its
title represented among the kept chunks (possibly via an earlier keyword
chunk with the same title). -/
theorem keptKeyword_title_complete (ks : List Chunk) (titles : List String) :
    ∀ c ∈ ks, c.chunk_title ∉ titles →
      c.chunk_title ∈ (keptKeyword titles ks).map Chunk.chunk_title := by
  induction ks generalizing titles with
  | nil => simp
  | cons k ks ih =>
    intro c hc hnot
    rw [keptKeyword_cons]
    rcases List.mem_cons.mp hc with hc | hc
    · subst hc
      rw [if_neg (by simp [contains_eq_mem, hnot])]
      simp
    · by_cases h : titles.contains k.chunk_title = true
      · rw [if_pos h]
        exact ih titles c hc hnot
      · rw [if_neg h]
        by_cases he : c.chunk_title = k.chunk_title
        · simp [he]
        · simp only [List.map_cons, List.mem_cons]
          exact Or.inr (ih (titles ++ [k.chunk_title]) c hc (by simp [hnot, he]))

/-- Dropping a keyword chunk whose title is already among the accumulated
titles leaves the kept list unchanged. -/
theorem keptKeyword_skip (ks₁ : List Chunk) (c : Chunk) (ks₂ : List Chunk)
    (titles : List String) (h : c.chunk_title ∈ titles) :
    keptKeyword titles (ks₁ ++ c :: ks₂) = keptKeyword titles (ks₁ ++ ks₂) := by
  induction ks₁ generalizing titles with
  | nil =>
    simp only [List.nil_append]
    rw [keptKeyword_cons, if_pos ((contains_eq_mem _ _).mpr h)]
  | cons k ks ih =>
    simp only [List.cons_append]
    rw [keptKeyword_cons, keptKeyword_cons]
    by_cases hk : titles.contains k.chunk_title = true
    · rw [if_pos hk, if_pos hk]
      exact ih titles h
    · rw [if_neg hk, if_neg hk, ih (titles ++ [k.chunk_title]) (by simp [h])]

theorem combineAcc_skip (s kw₁ kw₂ : List Chunk) (c : Chunk)
    (h : c.chunk_title ∈ s.map Chunk.chunk_title) :
    combineAcc s (kw₁ ++ c :: kw₂) = combineAcc s (kw₁ ++ kw₂) := by
  rw [combineAcc_eq, combineAcc_eq, keptKeyword_skip kw₁ c kw₂ _ h]

theorem keptKeyword_empty_titles (ks : List Chunk)
    (h : keptKeyword [] ks = []) : ks = [] := by
  cases ks with
  | nil => rfl
  | cons k ks => rw [keptKeyword_cons] at h; simp at h

/-- C5: when a lexical (keyword) entry's title equals the title of some
semantic entry, `combine_results` excludes that lexical entry (removing it
from the keyword list leaves the result unchanged), the colliding semantic
entry's heading+text block is present in the combined texts, and no kept
keyword entry carries that title. -/
theorem C5_fusion_dedup (s kw₁ kw₂ : List Chunk) (c : Chunk)
    (h : c.chunk_title ∈ s.map Chunk.chunk_title) :
    combine_results s (kw₁ ++ c :: kw₂) = combine_results s (kw₁ ++ kw₂) ∧
    (∃ sc, sc ∈ s ∧ sc.chunk_title = c.chunk_title ∧
      chunkHeading sc ∈ (combineAcc s (kw₁ ++ c :: kw₂)).2.2) ∧
    (∀ d ∈ keptKeyword (s.map Chunk.chunk_title) (kw₁ ++ c :: kw₂),
      d.chunk_title ≠ c.chunk_title) := by
  refine ⟨?_, ?_, ?_⟩
  · rw [combine_results, combine_results, combineAcc_skip s kw₁ kw₂ c h]
  · rcases List.mem_map.mp h with ⟨sc, hsc, hst⟩
    refine ⟨sc, hsc, hst, ?_⟩
    rw [combineAcc_eq]
    exact List.mem_append_left _ (List.mem_map_of_mem chunkHeading hsc)
  · intro d hd he
    exact keptKeyword_title_not_mem _ _ d hd (he ▸ h)

/-- C5 witness: concrete instance of the fusion-dedup theorem with one
semantic and one colliding keyword chunk. -/
theorem C5_fusion_dedup_witness :
    (⟨"k1", "T", "lex", 1, "keyword"⟩ : Chunk).chunk_title ∈
      ([⟨"s1", "T", "sem", 1, "semantic"⟩] : List Chunk).map Chunk.chunk_title ∧
    (combine_results [⟨"s1", "T", "sem", 1, "semantic"⟩] ([] ++ ⟨"k1", "T", "lex", 1, "keyword"⟩ :: []) =
        combine_results [⟨"s1", "T", "sem", 1, "semantic"⟩] ([] ++ []) ∧
      (∃ sc, sc ∈ ([⟨"s1", "T", "sem", 1, "semantic"⟩] : List Chunk) ∧
        sc.chunk_title = (⟨"k1", "T", "lex", 1, "keyword"⟩ : Chunk).chunk_title ∧
        chunkHeading sc ∈
          (combineAcc [⟨"s1", "T", "sem", 1, "semantic"⟩] ([] ++ ⟨"k1", "T", "lex", 1, "keyword"⟩ :: [])).2.2) ∧
      (∀ d ∈ keptKeyword (([⟨"s1", "T", "sem", 1, "semantic"⟩] : List Chunk).map Chunk.chunk_title)
          ([] ++ ⟨"k1", "T", "lex", 1, "keyword"⟩ :: []),
        d.chunk_title ≠ (⟨"k1", "T", "lex", 1, "keyword"⟩ : Chunk).chunk_title)) :=
  ⟨by decide,
   C5_fusion_dedup [⟨"s1", "T", "sem", 1, "semantic"⟩] [] [] ⟨"k1", "T", "lex", 1, "keyword"⟩ (by decide)⟩

/-- C6: the fused bundle's `RAG_combined_total_chunk_number` is zero exactly
when both retrieval channels returned empty lists. -/
theorem C6_zero_evidence_iff (s kw : List Chunk) :
    (combine_results s kw).RAG_combined_total_chunk_number = 0 ↔ s = [] ∧ kw = [] := by
  constructor
  · intro h
    rw [combine_results] at h
    simp only [combineAcc_eq, List.length_append, List.length_map,
      Nat.add_eq_zero, List.length_eq_zero] at h
    rcases h with ⟨hs, hk⟩
    subst hs
    simp only [List.map_nil] at hk
    exact ⟨rfl, keptKeyword_empty_titles kw hk⟩
  · rintro ⟨rfl, rfl⟩
    rfl

/-- C6 witness: the zero-evidence equivalence applied at two empty channel
lists yields a zero chunk count. -/
theorem C6_zero_evidence_iff_witness :
    (combine_results [] []).RAG_combined_total_chunk_number = 0 :=
  (C6_zero_evidence_iff [] []).mpr ⟨rfl, rfl⟩

/-- C10: asymmetric dedup of `combine_results`: every semantic entry counts
toward the total (even with duplicated titles among semantic entries), the
bundle's title list starts with all semantic titles in order, the kept
keyword entries have pairwise-distinct titles none of which is a semantic
title, and every keyword entry whose title avoids all semantic titles is
represented among the kept titles. -/
theorem C10_asymmetric_dedup (s kw : List Chunk) :
    (combine_results s kw).RAG_combined_total_chunk_number =
        s.length + (keptKeyword (s.map Chunk.chunk_title) kw).length ∧
    (combineAcc s kw).2.1 =
        s.map Chunk.chunk_title ++ (keptKeyword (s.map Chunk.chunk_title) kw).map Chunk.chunk_title ∧
    ((keptKeyword (s.map Chunk.chunk_title) kw).map Chunk.chunk_title).Nodup ∧
    (∀ d ∈ keptKeyword (s.map Chunk.chunk_title) kw, d.chunk_title ∉ s.map Chunk.chunk_title) ∧
    (∀ d ∈ kw, d.chunk_title ∉ s.map Chunk.chunk_title →
      d.chunk_title ∈ (keptKeyword (s.map Chunk.chunk_title) kw).map Chunk.chunk_title) := by
  refine ⟨?_, ?_, keptKeyword_titles_nodup kw _,
    keptKeyword_title_not_mem kw _, keptKeyword_title_complete kw _⟩
  · rw [combine_results]
    simp [combineAcc_eq]
  · rw [combineAcc_eq]

/-- C10 witness: concrete instance with two same-titled semantic chunks
(both counted) and a same-titled keyword chunk (dropped). -/
theorem C10_asymmetric_dedup_witness :
    (combine_results
        [⟨"s1", "T", "a", 1, "semantic"⟩, ⟨"s2", "T", "b", 1, "semantic"⟩]
        [⟨"k1", "T", "c", 1, "keyword"⟩]).RAG_combined_total_chunk_number = 2 := by
  have h := C10_asymmetric_dedup
    [⟨"s1", "T", "a", 1, "semantic"⟩, ⟨"s2", "T", "b", 1, "semantic"⟩]
    [⟨"k1", "T", "c", 1, "keyword"⟩]
  rw [h.1]
  decide

/-! ### Constrained classifier (`app_5_LLM.py`) -/

/-- The four ticket categories (`TICKET_CATEGORIES` in `app_5_LLM.py`). -/
def TICKET_CATEGORIES : List String :=
  ["Make New Package", "Publish Artwork to Platform",
   "Change Existing Image Assets", "Add Missing Image Assets"]

/-- A Python value appearing as a field of the decoded JSON object.  Only
the shapes the claims exercise are modelled: strings, integers and `None`. -/
inductive PyVal where
  | vstr (s : String)
  | vint (n : Int)
  | vnone
deriving DecidableEq

/-- A decoded JSON object, as an association list (`dict`). -/
abbrev PyDict := List (String × PyVal)

/-- `dict.get(key, default)`. -/
def dictGet (d : PyDict) (key : String) (default : PyVal) : PyVal :=
  match d.find? (fun p => p.1 == key) with
  | some p => p.2
  | none => default

/-- Python `str()` conversion used when a value is interpolated into an
f-string. -/
def pyStr : PyVal → String
  | .vstr s => s
  | .vint n => toString n
  | .vnone => "None"

/-- Python `s.strip()` on a string: remove leading and trailing
whitespace. -/
def stripString (s : String) : String :=
  String.mk (((s.data.dropWhile Char.isWhitespace).reverse.dropWhile Char.isWhitespace).reverse)

/-- Python `x.strip()`: succeeds (trimming whitespace) only on `str`
values, raising `AttributeError` otherwise. -/
def pyStrip : PyVal → Except String String
  | .vstr s => .ok (stripString s)
  | .vint _ => .error "AttributeError: int object has no attribute strip"
  | .vnone => .error "AttributeError: NoneType object has no attribute strip"

/-- Decimal-integer parse of a trimmed string: optional sign followed by a
nonempty digit run, as accepted by Python `int(str)`. -/
def parseIntDigits : List Char → Option Nat
  | [] => none
  | ds =>
    if ds.all Char.isDigit then
      some (ds.foldl (fun acc c => acc * 10 + (c.toNat - 48)) 0)
    else none

/-- Python `int(str)` on the character list of a trimmed string. -/
def parseIntChars : List Char → Option Int
  | [] => none
  | c :: cs =>
    if c = '-' then (parseIntDigits cs).map (fun n => -(n : Int))
    else if c = '+' then (parseIntDigits cs).map (fun n => (n : Int))
    else (parseIntDigits (c :: cs)).map (fun n => (n : Int))

/-- Python `int(x)`: identity on `int`, decimal parse (after stripping
whitespace) on `str` raising `ValueError` on failure, `TypeError` on
`None`. -/
def pyInt : PyVal → Except String Int
  | .vint n => .ok n
  | .vstr s =>
    match parseIntChars (stripString s).data with
    | some n => .ok n
    | none => .error "ValueError: invalid literal for int() with base 10"
  | .vnone => .error "TypeError: int() argument must not be NoneType"

/-- Python `s.find(sub)` for a single-character pattern: index of the first
occurrence, `-1` when absent. -/
def pyFindChar (s : String) (c : Char) : Int :=
  match s.data.indexOf? c with
  | some i => (i : Int)
  | none => -1

/-- Python `s.rfind(sub)` for a single-character pattern: index of the last
occurrence, `-1` when absent. -/
def pyRfindChar (s : String) (c : Char) : Int :=
  match s.data.reverse.indexOf? c with
  | some i => (s.data.length : Int) - 1 - (i : Int)
  | none => -1

/-- Clamp one endpoint of a Python slice `s[a:b]` to `[0, len]`, resolving
negative indices from the end. -/
def pySliceIndex (len : Nat) (i : Int) : Nat :=
  if i < 0 then ((len : Int) + i).toNat else min i.toNat len

/-- Python string slice `s[a:b]` with negative-index semantics. -/
def pySlice (s : String) (a b : Int) : String :=
  let start := pySliceIndex s.data.length a
  let stop := pySliceIndex s.data.length b
  String.mk ((s.data.drop start).take (stop - start))

/-- The opening-brace character, `U+007B`. -/
def openBrace : Char := Char.ofNat 123

/-- The closing-brace character, `U+007D`. -/
def closeBrace : Char := Char.ofNat 125

/-- The substring `raw[raw.find(openbrace):raw.rfind(closebrace)+1]` that
`master_llm` hands to `json.loads`. -/
def jsonWindow (raw : String) : String :=
  pySlice raw (pyFindChar raw openBrace) (pyRfindChar raw closeBrace + 1)

/-- The fallback dictionary installed by `master_llm` when decoding the
model output fails. -/
def fallbackData : PyDict :=
  [("result", .vstr "LLM JSON ERROR"),
   ("result_confidence", .vint 0),
   ("result_explanation", .vstr "Parsing failed or no valid JSON output."),
   ("result_summary", .vstr "")]

/-- The dataclass `MasterLLMResult` from `app_5_LLM.py`.  `result` and
`result_confidence` are coerced by the source (`.strip()`, `int(...)`);
the explanation and summary fields are stored untouched, so they keep the
raw Python value type. -/
structure MasterLLMResult where
  result : String
  result_confidence : Int
  result_explanation : PyVal
  result_summary : PyVal
  RAG_combined_title : String
  RAG_combined_total_chunk_number : Nat
  is_first_pass : Bool
deriving DecidableEq

/-- Steps 4–6 of `master_llm`: slice the raw model output to the outermost
object delimiters, decode it (`jsonLoads` stands for the external
`json.loads`, returning `none` on a decode exception), fall back to the
error-sentinel dictionary on failure, validate the category, convert the
confidence with `int(...)`, and build the `MasterLLMResult`.  An
`Except.error` models a Python exception escaping `master_llm`. -/
def masterLLMPostprocess (jsonLoads : String → Option PyDict) (rawContent : String)
    (ragTitle : String) (ragChunkCount : Nat) (isFirstPass : Bool) :
    Except String MasterLLMResult := do
  let raw := stripString rawContent
  let data :=
    match jsonLoads (jsonWindow raw) with
    | some d => d
    | none => fallbackData
  let stripped ← pyStrip (dictGet data ("result") (.vstr ""))
  let result := if TICKET_CATEGORIES.contains stripped then stripped
                else "LLM CATEGORIZATION ERROR"
  let conf ← pyInt (dictGet data ("result_confidence") (.vint 0))
  .ok
    { result := result
      result_confidence := conf
      result_explanation := dictGet data ("result_explanation") (.vstr "")
      result_summary := dictGet data ("result_summary") (.vstr "")
      RAG_combined_title := ragTitle
      RAG_combined_total_chunk_number := ragChunkCount
      is_first_pass := isFirstPass }

/-! ### First-pass session flag (step 6 of `master_llm`) -/

/-- One `master_llm` invocation's effect on `st.session_state`: if the key
`FIRST_PASS_DONE` is absent (modelled by `none`) it is first initialised to
`False`; `is_first_pass` is the negation of the stored flag; the flag is
then set to `True`.  Returns `(is_first_pass, new session state)`. -/
def firstPassStep : Option Bool → Bool × Option Bool
  | none => (true, some true)
  | some done => (!done, some true)

/-- The session-state value of `FIRST_PASS_DONE` after `n` invocations of
`master_llm` in a fresh session. -/
def firstPassState : Nat → Option Bool
  | 0 => none
  | n + 1 => (firstPassStep (firstPassState n)).2

/-- The `is_first_pass` value produced by invocation number `n`
(0-indexed) of `master_llm` within one session. -/
def firstPassOutput (n : Nat) : Bool :=
  (firstPassStep (firstPassState n)).1

/-! ### Conversation orchestrator (`master_flow_orchestrator`) -/

/-- One dictionary returned by `master_flow_orchestrator`. The `debug` key
is absent from the three `CHATLLM` dictionaries, hence the `Option`. -/
structure FlowResult where
  flow_type : String
  response_text : String
  debug : Option String
  action : String
deriving DecidableEq

/-- `master_flow_orchestrator` from `app_5_LLM.py`, translated branch by
branch.  The mismatch branch calls `request_type_summary_llm` (an external
LLM call), passed here as a function parameter.  Python returns `None` when
no branch matches (unreachable in practice), modelled by `Option`. -/
def master_flow_orchestrator (request_type_summary_llm : String → String)
    (master_result : MasterLLMResult) (request_type : String)
    (request_description : String) : Option FlowResult :=
  let result := master_result.result
  let result_confidence := master_result.result_confidence
  let result_summary := master_result.result_summary
  let is_first_pass := master_result.is_first_pass
  let RAG_combined_total_chunk_number := master_result.RAG_combined_total_chunk_number
  if RAG_combined_total_chunk_number = 0 then
    some
      { flow_type := "RAG_RETRIEVAL_ERROR"
        response_text := "I wasn’t able to find any relevant context to classify this request. Could you please describe your ticket again or add a bit more detail?"
        debug := some "RAG retrieved 0 chunks"
        action := "RETRY" }
  else if result = "LLM JSON ERROR" then
    some
      { flow_type := "LLM_JSON_ERROR"
        response_text := "I couldn’t confidently determine the request type based on your description. Could you please describe your ticket again or add a bit more detail?"
        debug := some "The LLM responded in a format outside of JSON requirements."
        action := "RETRY" }
  else if result = "LLM CATEGORIZATION ERROR" then
    some
      { flow_type := "LLM_CATEGORIZATION_ERROR"
        response_text := "I couldn’t confidently determine the request type based on your description. Could you please describe your ticket again or add a bit more detail?"
        debug := some "The LLM gave an undefined category."
        action := "RETRY" }
  else if result_confidence ≤ 60 then
    some
      { flow_type := "LOW_CONFIDENCE_ERROR"
        response_text := "I couldn’t confidently determine the request type based on your description. Could you please describe your ticket again or add a bit more detail?"
        debug := some "confidence level of result is <= 60"
        action := "RETRY" }
  else if result = request_type then
    some
      { flow_type := "CORRECT_MATCH_COMPLETE"
        response_text := "✅ It looks like your request went through correctly!"
        debug := some "result matches request type"
        action := "COMPLETE" }
  else if is_first_pass = false then
    some
      { flow_type := "MORE_CONTEXT_LLM"
        response_text := "Based on the new context you provided, I think '" ++ result ++ "' is the request type you're looking for.\n\n'" ++ result ++ "' means: " ++ pyStr result_summary ++ "\n\nWould you like me to change the Request Type to '" ++ result ++ "'?"
        debug := none
        action := "CHATLLM" }
  else if request_type = "I'm Unsure - Described in Request Section" ∧ is_first_pass = true then
    some
      { flow_type := "USER_UNSURE_LLM"
        response_text := "It looks like you weren't sure which request type your request falls under. No worries, I will help you out.\n\nBased on your Request Description '" ++ request_description ++ "', I think '" ++ result ++ "' is the request type you're looking for.\n\n'" ++ result ++ "' means: " ++ pyStr result_summary ++ "\n\nWould you like me to update the Request Type to '" ++ result ++ "' or choose another choice?"
        debug := none
        action := "CHATLLM" }
  else if request_type ≠ "I'm Unsure - Described in Request Section" ∧ is_first_pass = true then
    some
      { flow_type := "MISMATCH_LLM"
        response_text := "It looks like you chose '" ++ request_type ++ "' for this ticket. However, based on your Request Description '" ++ request_description ++ "', I think '" ++ result ++ "' is the request type you're actually looking for.\n\n'" ++ request_type ++ "' means: " ++ request_type_summary_llm request_type ++ "\n\n'" ++ result ++ "' means: " ++ pyStr result_summary ++ "\n\nWould you like me to change the Request Type to '" ++ result ++ "' or continue with your previous choice?"
        debug := none
        action := "CHATLLM" }
  else none

/-- The `flow_type` entry of an orchestrator outcome. -/
def flowTypeOf (r : Option FlowResult) : Option String := r.map FlowResult.flow_type

/-- The `action` entry of an orchestrator outcome. -/
def actionOf (r : Option FlowResult) : Option String := r.map FlowResult.action

/-- C1: the orchestrator checks its conditions in strict priority order:
zero evidence chunks force `RETRY` regardless of confidence and label
match; the two sentinel labels force `RETRY` regardless of confidence;
and, when evidence is present and the label is not a sentinel, confidence
at most 60 forces `RETRY` even when the label equals the chosen request
type. -/
theorem C1_priority_order (g : String → String) (mr : MasterLLMResult)
    (rt rd : String) :
    (mr.RAG_combined_total_chunk_number = 0 →
      flowTypeOf (master_flow_orchestrator g mr rt rd) = some "RAG_RETRIEVAL_ERROR" ∧
      actionOf (master_flow_orchestrator g mr rt rd) = some "RETRY") ∧
    (mr.RAG_combined_total_chunk_number ≠ 0 → mr.result = "LLM JSON ERROR" →
      flowTypeOf (master_flow_orchestrator g mr rt rd) = some "LLM_JSON_ERROR" ∧
      actionOf (master_flow_orchestrator g mr rt rd) = some "RETRY") ∧
    (mr.RAG_combined_total_chunk_number ≠ 0 → mr.result = "LLM CATEGORIZATION ERROR" →
      flowTypeOf (master_flow_orchestrator g mr rt rd) = some "LLM_CATEGORIZATION_ERROR" ∧
      actionOf (master_flow_orchestrator g mr rt rd) = some "RETRY") ∧
    (mr.RAG_combined_total_chunk_number ≠ 0 → mr.result ≠ "LLM JSON ERROR" →
      mr.result ≠ "LLM CATEGORIZATION ERROR" → mr.result_confidence ≤ 60 →
      flowTypeOf (master_flow_orchestrator g mr rt rd) = some "LOW_CONFIDENCE_ERROR" ∧
      actionOf (master_flow_orchestrator g mr rt rd) = some "RETRY") := by
  refine ⟨?_, ?_, ?_, ?_⟩
  · intro h0
    constructor <;> simp [flowTypeOf, actionOf, master_flow_orchestrator, h0]
  · intro h0 hj
    constructor <;> simp [flowTypeOf, actionOf, master_flow_orchestrator, h0, hj]
  · intro h0 hc
    have hj : mr.result ≠ "LLM JSON ERROR" := by rw [hc]; decide
    constructor <;> simp [flowTypeOf, actionOf, master_flow_orchestrator, h0, hj, hc]
  · intro h0 hj hc h60
    constructor <;> simp [flowTypeOf, actionOf, master_flow_orchestrator, h0, hj, hc, h60]

/-- C1 witness: with zero chunks, confidence 95 and a label equal to the
chosen request type, the orchestrator still answers `RETRY`. -/
theorem C1_priority_order_witness :
    flowTypeOf (master_flow_orchestrator id
        { result := "Make New Package", result_confidence := 95,
          result_explanation := .vstr "", result_summary := .vstr "",
          RAG_combined_title := "", RAG_combined_total_chunk_number := 0,
          is_first_pass := true }
        ("Make New Package") ("some ticket")) = some "RAG_RETRIEVAL_ERROR" ∧
    actionOf (master_flow_orchestrator id
        { result := "Make New Package", result_confidence := 95,
          result_explanation := .vstr "", result_summary := .vstr "",
          RAG_combined_title := "", RAG_combined_total_chunk_number := 0,
          is_first_pass := true }
        ("Make New Package") ("some ticket")) = some "RETRY" :=
  (C1_priority_order id
    { result := "Make New Package", result_confidence := 95,
      result_explanation := .vstr "", result_summary := .vstr "",
      RAG_combined_title := "", RAG_combined_total_chunk_number := 0,
      is_first_pass := true }
    ("Make New Package") ("some ticket")).1 rfl

/-- C2: past the evidence and sentinel checks, confidence exactly 60 yields
`RETRY` and confidence 61 with a matching label yields `COMPLETE`. -/
theorem C2_confidence_boundary (g : String → String) (mr : MasterLLMResult)
    (rt rd : String)
    (h0 : mr.RAG_combined_total_chunk_number ≠ 0)
    (hj : mr.result ≠ "LLM JSON ERROR")
    (hc : mr.result ≠ "LLM CATEGORIZATION ERROR") :
    (mr.result_confidence = 60 →
      flowTypeOf (master_flow_orchestrator g mr rt rd) = some "LOW_CONFIDENCE_ERROR" ∧
      actionOf (master_flow_orchestrator g mr rt rd) = some "RETRY") ∧
    (mr.result_confidence = 61 → mr.result = rt →
      flowTypeOf (master_flow_orchestrator g mr rt rd) = some "CORRECT_MATCH_COMPLETE" ∧
      actionOf (master_flow_orchestrator g mr rt rd) = some "COMPLETE") := by
  constructor
  · intro h60
    have h : mr.result_confidence ≤ 60 := by omega
    constructor <;> simp [flowTypeOf, actionOf, master_flow_orchestrator, h0, hj, hc, h]
  · intro h61 hm
    have h : ¬mr.result_confidence ≤ 60 := by omega
    subst hm
    constructor <;> simp [flowTypeOf, actionOf, master_flow_orchestrator, h0, hj, hc, h]

/-- C2 witness: concrete classifier results with confidence 60 and 61 on
either side of the acceptance floor. -/
theorem C2_confidence_boundary_witness :
    (flowTypeOf (master_flow_orchestrator id
        { result := "Make New Package", result_confidence := 60,
          result_explanation := .vstr "", result_summary := .vstr "",
          RAG_combined_title := "", RAG_combined_total_chunk_number := 2,
          is_first_pass := true }
        ("Make New Package") ("d")) = some "LOW_CONFIDENCE_ERROR" ∧
      actionOf (master_flow_orchestrator id
        { result := "Make New Package", result_confidence := 60,
          result_explanation := .vstr "", result_summary := .vstr "",
          RAG_combined_title := "", RAG_combined_total_chunk_number := 2,
          is_first_pass := true }
        ("Make New Package") ("d")) = some "RETRY") ∧
    (flowTypeOf (master_flow_orchestrator id
        { result := "Make New Package", result_confidence := 61,
          result_explanation := .vstr "", result_summary := .vstr "",
          RAG_combined_title := "", RAG_combined_total_chunk_number := 2,
          is_first_pass := true }
        ("Make New Package") ("d")) = some "CORRECT_MATCH_COMPLETE" ∧
      actionOf (master_flow_orchestrator id
        { result := "Make New Package", result_confidence := 61,
          result_explanation := .vstr "", result_summary := .vstr "",
          RAG_combined_title := "", RAG_combined_total_chunk_number := 2,
          is_first_pass := true }
        ("Make New Package") ("d")) = some "COMPLETE") :=
  ⟨(C2_confidence_boundary id
      { result := "Make New Package", result_confidence := 60,
        result_explanation := .vstr "", result_summary := .vstr "",
        RAG_combined_title := "", RAG_combined_total_chunk_number := 2,
        is_first_pass := true }
      ("Make New Package") ("d") (by decide) (by decide) (by decide)).1 rfl,
   (C2_confidence_boundary id
      { result := "Make New Package", result_confidence := 61,
        result_explanation := .vstr "", result_summary := .vstr "",
        RAG_combined_title := "", RAG_combined_total_chunk_number := 2,
        is_first_pass := true }
      ("Make New Package") ("d") (by decide) (by decide) (by decide)).2 rfl rfl⟩

/-- A decoder standing for `json.loads` on inputs where decoding fails with
an exception (for instance the empty string, which is what the slicing
step produces when the raw output contains no braces). -/
def jsonLoadsFailing : String → Option PyDict := fun _ => none

/-- C3 counterexample: on a raw output with no decodable JSON object,
`master_llm` returns normally with confidence 0, but the returned label is
`"LLM CATEGORIZATION ERROR"`, not `"LLM JSON ERROR"`: the category
validation step overwrites the decode-failure sentinel. -/
theorem C3_counterexample :
    jsonWindow ("not json") = "" ∧
    masterLLMPostprocess jsonLoadsFailing ("not json") ("t") 3 true =
      .ok { result := "LLM CATEGORIZATION ERROR", result_confidence := 0,
            result_explanation := .vstr "Parsing failed or no valid JSON output.",
            result_summary := .vstr "", RAG_combined_title := "t",
            RAG_combined_total_chunk_number := 3, is_first_pass := true } ∧
    ("LLM CATEGORIZATION ERROR" : String) ≠ "LLM JSON ERROR" := by
  refine ⟨rfl, rfl, by decide⟩

/-- C3 (amended): whenever decoding the sliced model output fails,
`master_llm` returns normally (no exception) with confidence 0 and the
fallback explanation, but with label `"LLM CATEGORIZATION ERROR"`, because
the internal `"LLM JSON ERROR"` sentinel is not one of the four ticket
categories and is overwritten by the category-validation step. -/
theorem C3_decode_failure_result (jsonLoads : String → Option PyDict)
    (rawContent title : String) (n : Nat) (fp : Bool)
    (h : jsonLoads (jsonWindow (stripString rawContent)) = none) :
    masterLLMPostprocess jsonLoads rawContent title n fp =
      .ok { result := "LLM CATEGORIZATION ERROR", result_confidence := 0,
            result_explanation := .vstr "Parsing failed or no valid JSON output.",
            result_summary := .vstr "", RAG_combined_title := title,
            RAG_combined_total_chunk_number := n, is_first_pass := fp } := by
  rw [masterLLMPostprocess]
  rw [h]
  rfl

/-- C3 witness: the amended decode-failure theorem at a concrete raw
output. -/
theorem C3_decode_failure_result_witness :
    jsonLoadsFailing (jsonWindow (stripString ("oops"))) = none ∧
    masterLLMPostprocess jsonLoadsFailing ("oops") ("title") 2 false =
      .ok { result := "LLM CATEGORIZATION ERROR", result_confidence := 0,
            result_explanation := .vstr "Parsing failed or no valid JSON output.",
            result_summary := .vstr "", RAG_combined_title := "title",
            RAG_combined_total_chunk_number := 2, is_first_pass := false } :=
  ⟨rfl, C3_decode_failure_result jsonLoadsFailing ("oops") ("title") 2 false rfl⟩

/-- A decoder standing for `json.loads` on the concrete model response used
in the C4 theorem: a well-formed JSON object whose `result_confidence`
field is the string `"high"`. -/
def confidenceHighDecoder : String → Option PyDict := fun _ =>
  some [("result", .vstr "Make New Package"), ("result_confidence", .vstr "high")]

/-- C4: a model response that decodes to a JSON object whose
`result_confidence` is not a number makes `master_llm` raise `ValueError`
from `int(...)` — the conversion sits outside the `try`/`except` block, so
the exception propagates to the caller instead of being folded into a
classification outcome. -/
theorem C4_nonnumeric_confidence_raises :
    masterLLMPostprocess confidenceHighDecoder
      ("\x7b\"result\": \"Make New Package\", \"result_confidence\": \"high\"\x7d")
      ("t") 3 true =
      .error "ValueError: invalid literal for int() with base 10" := by
  rfl

/-- C7: within one session, `is_first_pass` is `true` for exactly the
first `master_llm` invocation, `false` for every later one, and the
session flag never reverts once set. -/
theorem C7_first_pass_monotone :
    firstPassOutput 0 = true ∧
    (∀ n : Nat, n ≠ 0 → firstPassOutput n = false) ∧
    (∀ n : Nat, n ≠ 0 → firstPassState n = some true) := by
  have hstate : ∀ n : Nat, n ≠ 0 → firstPassState n = some true := by
    intro n hn
    cases n with
    | zero => exact absurd rfl hn
    | succ m =>
      rw [firstPassState]
      cases h : firstPassState m with
      | none => rfl
      | some d => cases d <;> rfl
  refine ⟨rfl, ?_, hstate⟩
  intro n hn
  cases n with
  | zero => exact absurd rfl hn
  | succ m =>
    rw [firstPassOutput, hstate (m + 1) (Nat.succ_ne_zero m)]
    rfl

/-- C7 witness: by the monotonicity theorem, the fifth invocation of the
session sees `is_first_pass = false` while the first saw `true`. -/
theorem C7_first_pass_monotone_witness :
    firstPassOutput 0 = true ∧ firstPassOutput 5 = false :=
  ⟨C7_first_pass_monotone.1, C7_first_pass_monotone.2.1 5 (by decide)⟩

/-! ### Lexical keyword retrieval (`rag_retrieve_keyword` in `app_5_RAG.py`) -/

/-- One row `(id, title, text)` of the `rag_chunks` SQLite table, listed in
rowid order. -/
structure KeywordRow where
  id : String
  title : String
  text : String
deriving DecidableEq

/-- A word character as matched by the regex `\w` (ASCII model): letters,
digits and underscore. -/
def isWordChar (c : Char) : Bool := c.isAlphanum || c = '_'

/-- Helper for `re.findall(r"\w+", s)`: split the character list into
maximal runs of word characters, carrying the (reversed) current run. -/
def wordRunsAux : List Char → List Char → List (List Char)
  | [], acc => if acc.isEmpty then [] else [acc.reverse]
  | c :: cs, acc =>
    if isWordChar c then wordRunsAux cs (c :: acc)
    else if acc.isEmpty then wordRunsAux cs []
    else acc.reverse :: wordRunsAux cs []

/-- `re.findall(r"\w+", s)`: the maximal word-character runs of `s`. -/
def findallWords (s : String) : List String :=
  (wordRunsAux s.data []).map String.mk

/-- Python `str.lower()` (ASCII model), character by character. -/
def toLowerString (s : String) : String :=
  String.mk (s.data.map Char.toLower)

/-- The tokenizer of `rag_retrieve_keyword`:
`[w.lower() for w in re.findall(r"\w+", query_text) if len(w) > 2]`. -/
def queryKeywords (query_text : String) : List String :=
  ((findallWords query_text).filter (fun w => w.length > 2)).map toLowerString

/-- Literal substring test (no wildcards). -/
def containsSub : List Char → List Char → Bool
  | [], pat => pat.isEmpty
  | c :: t, pat => pat.isPrefixOf (c :: t) || containsSub t pat

/-- SQL `LIKE` anchored match of a pattern against the front of a string:
`_` in the pattern matches any single character, every other pattern
character matches itself.  (`%` cannot occur here: the tokens are `\w+`
runs, which admit `_` but not `%`.) -/
def likePrefixMatch : List Char → List Char → Bool
  | [], _ => true
  | _ :: _, [] => false
  | p :: ps, c :: cs => (p == '_' || p == c) && likePrefixMatch ps cs

/-- The SQL `LIKE '%pat%'` test: some suffix of the string starts with a
`likePrefixMatch` of the pattern, `_` acting as a single-character
wildcard. -/
def likeContainsSub : List Char → List Char → Bool
  | [], pat => pat.isEmpty
  | c :: t, pat => likePrefixMatch pat (c :: t) || likeContainsSub t pat

/-- Greedy non-overlapping occurrence counter, as `str.count`: `skip` is
the number of characters of a previous match still to be consumed. -/
def countSubGo (pat : List Char) : List Char → Nat → Nat
  | [], _ => 0
  | _ :: t, Nat.succ k => countSubGo pat t k
  | c :: t, 0 =>
    if pat.isPrefixOf (c :: t) then 1 + countSubGo pat t (pat.length - 1)
    else countSubGo pat t 0

/-- Python `s.count(pat)`: non-overlapping occurrences, scanning left to
right; an empty pattern counts `len(s) + 1`. -/
def pyCount (s pat : String) : Nat :=
  if pat.data.isEmpty then s.data.length + 1 else countSubGo pat.data s.data 0

/-- The SQL `WHERE` clause of `rag_retrieve_keyword` for one keyword:
`LOWER(title) LIKE '%k%' OR LOWER(text) LIKE '%k%'`.  A token may contain
`_` (a word character), which `LIKE` treats as a single-character
wildcard, so this clause can select rows in which the token does not occur
literally. -/
def likeMatch (row : KeywordRow) (k : String) : Bool :=
  likeContainsSub (toLowerString row.title).data k.data ||
  likeContainsSub (toLowerString row.text).data k.data

/-- A row is selected by the SQL query when any keyword matches it. -/
def rowMatches (keywords : List String) (row : KeywordRow) : Bool :=
  keywords.any (likeMatch row)

/-- The score of a selected row:
`sum(text.lower().count(k) + title.lower().count(k) * 2 for k in keywords)`. -/
def rowScore (keywords : List String) (row : KeywordRow) : Nat :=
  (keywords.map (fun k =>
    pyCount (toLowerString row.text) k + pyCount (toLowerString row.title) k * 2)).sum

/-- The scored chunk dictionary built for a selected row, with
`float(score)` modelled as the cast to `Rat`. -/
def scoredChunk (keywords : List String) (row : KeywordRow) : Chunk :=
  { chunk_id := row.id
    chunk_title := row.title
    chunk_text := row.text
    chunk_score := (rowScore keywords row : Rat)
    source := "keyword" }

/-- Stable descending insertion by `chunk_score`: the new element goes
after every existing element with an equal or larger score. -/
def insertByScoreDesc (c : Chunk) : List Chunk → List Chunk
  | [] => [c]
  | d :: ds =>
    if c.chunk_score ≤ d.chunk_score then d :: insertByScoreDesc c ds
    else c :: d :: ds

/-- Python `list.sort(key=score, reverse=True)`: the stable descending
sort by `chunk_score` (stable sorts are unique, so any stable
implementation agrees with CPython timsort extensionally). -/
def sortByScoreDesc (l : List Chunk) : List Chunk :=
  l.foldl (fun acc c => insertByScoreDesc c acc) []

/-- `TOP_K_KEYWORD` from `app_5_RAG.py`. -/
def TOP_K_KEYWORD : Nat := 2

/-- `rag_retrieve_keyword` from `app_5_RAG.py`.  `storeAvailable` models
`os.path.exists(SQLITE_DB_PATH)`; when false the function raises
`FileNotFoundError`.  With an empty keyword list the generated SQL reads
`WHERE  LIMIT n` — a syntax error, raised by `sqlite3` — hence the second
error branch.  Otherwise: the rows matching any keyword, in rowid order,
truncated by `LIMIT top_k * 3` (there is no `ORDER BY`), are scored,
stably sorted by descending score and truncated to `top_k`. -/
def rag_retrieve_keyword (storeAvailable : Bool) (store : List KeywordRow)
    (query_text : String) (top_k : Nat) : Except String (List Chunk) :=
  if storeAvailable = false then
    .error "FileNotFoundError: SQLite database not found"
  else
    let keywords := queryKeywords query_text
    if keywords = [] then
      .error "sqlite3.OperationalError: incomplete input"
    else
      let rows := (store.filter (rowMatches keywords)).take (top_k * 3)
      let scored := rows.map (scoredChunk keywords)
      .ok ((sortByScoreDesc scored).take top_k)

/-- `master_rag` from `app_5_RAG.py`: run both retrievals (the semantic
channel is the external Pinecone index, its result list is a parameter)
and fuse them.  `future.result()` re-raises any exception of the keyword
worker inside `master_rag`, which has no handler, so a keyword-side error
propagates to the caller. -/
def master_rag (storeAvailable : Bool) (semantic_chunks : List Chunk)
    (store : List KeywordRow) (query : String) : Except String RAGResult :=
  match rag_retrieve_keyword storeAvailable store query TOP_K_KEYWORD with
  | .error e => .error e
  | .ok keyword_chunks => .ok (combine_results semantic_chunks keyword_chunks)

/-- Descending order on chunk scores. -/
def scoreGE (a b : Chunk) : Prop := b.chunk_score ≤ a.chunk_score

theorem insertByScoreDesc_perm (c : Chunk) (l : List Chunk) :
    (insertByScoreDesc c l).Perm (c :: l) := by
  induction l with
  | nil => exact List.Perm.refl _
  | cons d ds ih =>
    rw [insertByScoreDesc]
    by_cases h : c.chunk_score ≤ d.chunk_score
    · rw [if_pos h]
      exact (ih.cons d).trans (List.Perm.swap c d ds)
    · rw [if_neg h]

theorem insertByScoreDesc_pairwise (c : Chunk) (l : List Chunk)
    (h : l.Pairwise scoreGE) : (insertByScoreDesc c l).Pairwise scoreGE := by
  induction l with
  | nil => simp [insertByScoreDesc, List.pairwise_cons]
  | cons d ds ih =>
    rw [insertByScoreDesc]
    rcases List.pairwise_cons.mp h with ⟨hd, hds⟩
    by_cases hcd : c.chunk_score ≤ d.chunk_score
    · rw [if_pos hcd]
      refine List.pairwise_cons.mpr ⟨?_, ih hds⟩
      intro x hx
      rcases List.mem_cons.mp ((insertByScoreDesc_perm c ds).mem_iff.mp hx) with hx | hx
      · subst hx; exact hcd
      · exact hd x hx
    · rw [if_neg hcd]
      refine List.pairwise_cons.mpr ⟨?_, h⟩
      intro x hx
      rcases List.mem_cons.mp hx with hx | hx
      · subst hx; exact le_of_not_le hcd
      · exact le_trans (hd x hx) (le_of_not_le hcd)

theorem foldl_insertByScoreDesc_perm (l acc : List Chunk) :
    (l.foldl (fun a c => insertByScoreDesc c a) acc).Perm (acc ++ l) := by
  induction l generalizing acc with
  | nil => simp
  | cons c cs ih =>
    rw [List.foldl_cons]
    refine (ih (insertByScoreDesc c acc)).trans ?_
    refine (((insertByScoreDesc_perm c acc).append_right cs).trans ?_)
    exact (List.perm_middle).symm

theorem sortByScoreDesc_perm (l : List Chunk) : (sortByScoreDesc l).Perm l := by
  simpa using foldl_insertByScoreDesc_perm l []

theorem sortByScoreDesc_pairwise (l : List Chunk) :
    (sortByScoreDesc l).Pairwise scoreGE := by
  rw [sortByScoreDesc]
  have h : ∀ acc : List Chunk, acc.Pairwise scoreGE →
      (l.foldl (fun a c => insertByScoreDesc c a) acc).Pairwise scoreGE := by
    induction l with
    | nil => intro acc hacc; exact hacc
    | cons c cs ih =>
      intro acc hacc
      rw [List.foldl_cons]
      exact ih _ (insertByScoreDesc_pairwise c acc hacc)
  exact h [] List.Pairwise.nil

theorem containsSub_count_pos (pat : List Char) (hp : pat ≠ []) :
    ∀ s : List Char, containsSub s pat = true → 1 ≤ countSubGo pat s 0 := by
  intro s
  induction s with
  | nil =>
    intro h
    rw [containsSub] at h
    exact absurd (List.isEmpty_iff.mp h) hp
  | cons c t ih =>
    intro h
    rw [containsSub] at h
    rw [countSubGo]
    by_cases hpre : pat.isPrefixOf (c :: t) = true
    · rw [if_pos hpre]; omega
    · rw [if_neg hpre]
      rcases Bool.or_eq_true _ _ |>.mp h with h | h
      · exact absurd h hpre
      · exact ih h

theorem likePrefixMatch_eq_isPrefixOf (pat : List Char) (h : ('_' : Char) ∉ pat) :
    ∀ s : List Char, likePrefixMatch pat s = pat.isPrefixOf s := by
  induction pat with
  | nil =>
    intro s
    cases s <;> rfl
  | cons p ps ih =>
    intro s
    cases s with
    | nil => rfl
    | cons c cs =>
      have hp : p ≠ '_' := by
        intro he
        exact h (he ▸ List.mem_cons_self p ps)
      have hps : ('_' : Char) ∉ ps := fun hm => h (List.mem_cons_of_mem p hm)
      show ((p == '_' || p == c) && likePrefixMatch ps cs) =
        ((p == c) && ps.isPrefixOf cs)
      rw [ih hps cs, beq_eq_false_iff_ne.mpr hp, Bool.false_or]

theorem likeContainsSub_eq_containsSub (pat : List Char) (h : ('_' : Char) ∉ pat) :
    ∀ s : List Char, likeContainsSub s pat = containsSub s pat := by
  intro s
  induction s with
  | nil => rfl
  | cons c t ih =>
    show (likePrefixMatch pat (c :: t) || likeContainsSub t pat) =
      (pat.isPrefixOf (c :: t) || containsSub t pat)
    rw [likePrefixMatch_eq_isPrefixOf pat h, ih]

/-- Demonstration of the `_` wildcard in the embedded `LIKE` test: the
single `\w+` token `tv_show` selects a row whose lowered text reads
`tv show`, although the literal occurrence count — and with it the row's
score — is zero. -/
theorem likeMatch_underscore_wildcard :
    queryKeywords ("tv_show") = [("tv_show" : String)] ∧
    likeMatch ⟨"r8", "doc8", "tv show"⟩ ("tv_show") = true ∧
    rowScore (queryKeywords ("tv_show")) ⟨"r8", "doc8", "tv show"⟩ = 0 :=
  ⟨rfl, rfl, rfl⟩

/-- Every token produced by the tokenizer is nonempty (its length is
strictly greater than 2). -/
theorem queryKeywords_ne_nil (q : String) :
    ∀ k ∈ queryKeywords q, k.data ≠ [] := by
  intro k hk
  rcases List.mem_map.mp hk with ⟨w, hw, hkw⟩
  have hlen : w.length > 2 := by
    have := List.mem_filter.mp hw
    simpa using this.2
  subst hkw
  intro hnil
  have : (toLowerString w).data.length = 0 := by rw [hnil]; rfl
  rw [toLowerString] at this
  simp only [List.length_map] at this
  have : w.length = 0 := this
  omega

/-- A row selected by the SQL `WHERE` clause through keywords free of the
`_` wildcard has a strictly positive score: some keyword then occurs
literally in its lowered title or text.  (With an underscore in a token
the `LIKE` clause may select a row whose literal count is zero, as
`likeMatch_underscore_wildcard` shows.) -/
theorem rowMatches_score_pos (keywords : List String) (row : KeywordRow)
    (hkw : ∀ k ∈ keywords, k.data ≠ [])
    (hund : ∀ k ∈ keywords, ('_' : Char) ∉ k.data)
    (h : rowMatches keywords row = true) : 1 ≤ rowScore keywords row := by
  rcases List.any_eq_true.mp h with ⟨k, hk, hmatch⟩
  have hne : k.data ≠ [] := hkw k hk
  rw [likeMatch, likeContainsSub_eq_containsSub k.data (hund k hk),
    likeContainsSub_eq_containsSub k.data (hund k hk)] at hmatch
  have hsummand : 1 ≤ pyCount (toLowerString row.text) k + pyCount (toLowerString row.title) k * 2 := by
    rcases Bool.or_eq_true _ _ |>.mp hmatch with hm | hm
    · have := containsSub_count_pos k.data hne (toLowerString row.title).data hm
      have hc : 1 ≤ pyCount (toLowerString row.title) k := by
        rw [pyCount, if_neg (by simpa using hne)]
        exact this
      omega
    · have := containsSub_count_pos k.data hne (toLowerString row.text).data hm
      have hc : 1 ≤ pyCount (toLowerString row.text) k := by
        rw [pyCount, if_neg (by simpa using hne)]
        exact this
      omega
  refine le_trans hsummand ?_
  exact List.single_le_sum (by intro x hx; omega) _
    (List.mem_map_of_mem (fun k =>
      pyCount (toLowerString row.text) k + pyCount (toLowerString row.title) k * 2) hk)

/-- C8 (amended): for every available store and every query with a
nonempty token list, the lexical search returns (without raising) a list
`L` such that, writing `cands` for the first `top_k * 3` rows of the store
selected by the `LIKE` clause (the SQL `LIMIT` — not the whole store; `_`
in a token acts as a single-character wildcard in that clause), `L`
together with a remainder is a permutation of the scored `cands`, the
concatenation is sorted by descending score (so `L` holds the top
`top_k` of the candidates), `L` has `min top_k |cands|` elements, and —
provided no token contains an underscore, so that `LIKE` selection
coincides with literal overlap — every candidate, hence every returned
chunk, has score at least 1. -/
theorem C8_keyword_search (store : List KeywordRow) (query : String) (top_k : Nat)
    (h : queryKeywords query ≠ []) :
    ∃ L rest : List Chunk,
      rag_retrieve_keyword true store query top_k = Except.ok L ∧
      L.length = min top_k
        (((store.filter (rowMatches (queryKeywords query))).take (top_k * 3)).length) ∧
      (L ++ rest).Perm
        (((store.filter (rowMatches (queryKeywords query))).take (top_k * 3)).map
          (scoredChunk (queryKeywords query))) ∧
      (L ++ rest).Pairwise scoreGE ∧
      ((∀ k ∈ queryKeywords query, ('_' : Char) ∉ k.data) →
        ∀ c ∈ L ++ rest, 1 ≤ c.chunk_score) := by
  set kws := queryKeywords query with hkws
  set cands := (store.filter (rowMatches kws)).take (top_k * 3) with hcands
  set sorted := sortByScoreDesc (cands.map (scoredChunk kws)) with hsorted
  refine ⟨sorted.take top_k, sorted.drop top_k, ?_, ?_, ?_, ?_, ?_⟩
  · rw [rag_retrieve_keyword]
    rw [if_neg (by simp), if_neg h]
  · rw [List.length_take]
    congr 1
    rw [hsorted, (sortByScoreDesc_perm _).length_eq, List.length_map]
  · rw [List.take_append_drop]
    rw [hsorted]
    exact sortByScoreDesc_perm _
  · rw [List.take_append_drop]
    exact sortByScoreDesc_pairwise _
  · intro hund c hc
    rw [List.take_append_drop] at hc
    have hc' : c ∈ cands.map (scoredChunk kws) :=
      (sortByScoreDesc_perm _).mem_iff.mp hc
    rcases List.mem_map.mp hc' with ⟨row, hrow, hcrow⟩
    have hrowf : row ∈ store.filter (rowMatches kws) :=
      List.take_subset _ _ hrow
    have hmatch : rowMatches kws row = true := (List.mem_filter.mp hrowf).2
    have hscore : 1 ≤ rowScore kws row :=
      rowMatches_score_pos kws row (queryKeywords_ne_nil query) hund hmatch
    subst hcrow
    have hq : (1 : Rat) ≤ (rowScore kws row : Rat) := by exact_mod_cast hscore
    simpa [scoredChunk] using hq

/-- C8 witness: the amended keyword-search theorem applied to a concrete
store and query. -/
theorem C8_keyword_search_witness :
    queryKeywords ("big cat") ≠ [] ∧
    (∃ L rest : List Chunk,
      rag_retrieve_keyword true [⟨"r1", "doc1", "the cat sat"⟩] ("big cat") 2 = Except.ok L ∧
      L.length = min 2
        ((([⟨"r1", "doc1", "the cat sat"⟩] :
            List KeywordRow).filter (rowMatches (queryKeywords ("big cat")))).take (2 * 3)).length ∧
      (L ++ rest).Perm
        (((([⟨"r1", "doc1", "the cat sat"⟩] :
            List KeywordRow).filter (rowMatches (queryKeywords ("big cat")))).take (2 * 3)).map
          (scoredChunk (queryKeywords ("big cat")))) ∧
      (L ++ rest).Pairwise scoreGE ∧
      ((∀ k ∈ queryKeywords ("big cat"), ('_' : Char) ∉ k.data) →
        ∀ c ∈ L ++ rest, 1 ≤ c.chunk_score)) :=
  ⟨by decide, C8_keyword_search [⟨"r1", "doc1", "the cat sat"⟩] ("big cat") 2 (by decide)⟩

/-- The seven-row store exhibiting the `LIMIT` truncation: the six
low-scoring rows precede the highest-scoring row in rowid order. -/
def limitStore : List KeywordRow :=
  [⟨"r1", "doc1", "cat"⟩, ⟨"r2", "doc2", "cat"⟩, ⟨"r3", "doc3", "cat"⟩,
   ⟨"r4", "doc4", "cat"⟩, ⟨"r5", "doc5", "cat"⟩, ⟨"r6", "doc6", "cat"⟩,
   ⟨"r7", "cat", "cat cat"⟩]

/-- C8 counterexample: the lexical search does not return the top `top_k`
of the whole store.  On `limitStore` with query `"cat"` all seven rows
match, but the SQL `LIMIT top_k * 3 = 6` (with no `ORDER BY`) cuts the
candidate set to the first six rows, so the returned two chunks both score
1 while the excluded seventh row scores 4. -/
theorem C8_counterexample :
    rag_retrieve_keyword true limitStore ("cat") 2 =
      Except.ok [scoredChunk (queryKeywords ("cat")) ⟨"r1", "doc1", "cat"⟩,
        scoredChunk (queryKeywords ("cat")) ⟨"r2", "doc2", "cat"⟩] ∧
    (⟨"r7", "cat", "cat cat"⟩ : KeywordRow) ∈ limitStore ∧
    rowMatches (queryKeywords ("cat")) ⟨"r7", "cat", "cat cat"⟩ = true ∧
    (scoredChunk (queryKeywords ("cat")) ⟨"r7", "cat", "cat cat"⟩).chunk_score = 4 ∧
    (scoredChunk (queryKeywords ("cat")) ⟨"r1", "doc1", "cat"⟩).chunk_score = 1 ∧
    (scoredChunk (queryKeywords ("cat")) ⟨"r2", "doc2", "cat"⟩).chunk_score = 1 ∧
    scoredChunk (queryKeywords ("cat")) ⟨"r7", "cat", "cat cat"⟩ ∉
      [scoredChunk (queryKeywords ("cat")) ⟨"r1", "doc1", "cat"⟩,
       scoredChunk (queryKeywords ("cat")) ⟨"r2", "doc2", "cat"⟩] ∧
    (1 : Rat) < 4 :=
  ⟨rfl, by decide, by decide, by decide, by decide, by decide, by decide, by decide⟩

/-- Projection used to state that a `master_rag` call produced no evidence
bundle. -/
def ragCallSucceeded : Except String RAGResult → Bool
  | .ok _ => true
  | .error _ => false

/-- C9 counterexample: with the keyword backing store unreachable,
`rag_retrieve_keyword` raises `FileNotFoundError` and `master_rag`
propagates the exception — no degraded evidence bundle and no empty
result list reach the caller. -/
theorem C9_counterexample :
    rag_retrieve_keyword false [⟨"r1", "doc1", "cat"⟩] ("cat") 2 =
      Except.error "FileNotFoundError: SQLite database not found" ∧
    master_rag false [⟨"s1", "T", "sem", 1, "semantic"⟩] [⟨"r1", "doc1", "cat"⟩] ("cat") =
      Except.error "FileNotFoundError: SQLite database not found" ∧
    ragCallSucceeded
      (master_rag false [⟨"s1", "T", "sem", 1, "semantic"⟩] [⟨"r1", "doc1", "cat"⟩] ("cat")) = false :=
  ⟨rfl, rfl, rfl⟩

/-- C9 (amended): whenever the keyword backing store cannot be reached,
`rag_retrieve_keyword` raises `FileNotFoundError` instead of returning an
empty list, and `master_rag` re-raises it to its caller instead of
returning an Evidence Bundle in degraded mode. -/
theorem C9_unavailable_store_raises (semantic_chunks : List Chunk)
    (store : List KeywordRow) (query : String) :
    rag_retrieve_keyword false store query TOP_K_KEYWORD =
      Except.error "FileNotFoundError: SQLite database not found" ∧
    master_rag false semantic_chunks store query =
      Except.error "FileNotFoundError: SQLite database not found" ∧
    ragCallSucceeded (master_rag false semantic_chunks store query) = false := by
  refine ⟨rfl, rfl, rfl⟩

end SST
